import Mathlib

/-! Shallow embedding of the Exoquic browser SDK session engine
(`src/types.ts`, `src/connection.ts`, `src/source.ts`, `src/session.ts`,
`src/events.ts`, `src/subscription.ts`) together with proofs about the
specified behaviour.

Modelling conventions:

* JavaScript strings are `String`; millisecond timeouts are `ℚ` because the
  backoff multiplies them by 1.5 (the values reached here are exact in both
  models, and the claims about them are order-theoretic).
* `undefined`-able values are `Option _`.  JS truthiness tests on optional
  strings (`if (!x)`) are `optTruthy` (`undefined` and `""` are both falsy).
* Fallible IndexedDB operations return `Except Unit _`; a `FailOracle`
  chooses which underlying store operation fails, the all-`false` oracle
  being the failure-free run.  Errors that the TypeScript source catches and
  logs are swallowed at exactly the places the source catches them.
* `console` logging, the error-listener channel and the JWT callback are
  side channels without effect on the modelled state and are not modelled.
-/

namespace Exoquic

/-- The `cache` field of a subscribe frame / the `cacheMode` option
(`'never' | 'end' | 'start'` in `src/types.ts`); `endMode` models `'end'`. -/
inductive CacheMode
  | never
  | endMode
  | start
deriving DecidableEq

/-- `Event` from `src/types.ts`: `{gid: UUID, data: any}`.  The opaque
payload is modelled as a `String`. -/
structure Event where
  gid : String
  data : String
deriving DecidableEq

/-- `Batch` from `src/types.ts`:
`{destination: string, gid: UUID, data: Event[], sid: string}`. -/
structure Batch where
  destination : String
  gid : String
  data : List Event
  sid : String
deriving DecidableEq

/-- `SubscribeFrame` from `src/types.ts` (the constant version tag `v: 3`
is omitted). -/
structure SubscribeFrame where
  destination : String
  cid : Nat
  sid : Option String
  gid : Option String
  cache : CacheMode
deriving DecidableEq

/-- `PublishFrame` from `src/types.ts` (version tag omitted). -/
structure PublishFrame where
  destination : String
  data : String
deriving DecidableEq

/-- `SubAckFrame` from `src/types.ts` (version tag omitted). -/
structure SubAckFrame where
  sid : String
deriving DecidableEq

/-- `EventFrame` from `src/types.ts` (version tag omitted). -/
structure EventFrame where
  src : Nat
  batch : Batch
  sid : String
deriving DecidableEq

/-- `OnSrcFrame` from `src/types.ts` (version tag omitted). -/
structure OnSrcFrame where
  src : Nat
  sid : String
deriving DecidableEq

/-- The `Frame` union from `src/types.ts`. -/
inductive Frame
  | subscribe (f : SubscribeFrame)
  | publish (f : PublishFrame)
  | suback (f : SubAckFrame)
  | event (f : EventFrame)
  | onsrc (f : OnSrcFrame)
  | error (code message : String)
deriving DecidableEq

/-- JS truthiness of a `string | undefined` value: `undefined` and the
empty string are falsy. -/
def optTruthy : Option String → Bool
  | none => false
  | some s => s != ""

/-- JS `x || d` for an optional number (`0` is falsy, so it falls back to
the default, exactly as `options.reconnectTimeout || 1000` does). -/
def jsOrQ (v : Option ℚ) (d : ℚ) : ℚ :=
  match v with
  | none => d
  | some x => if x = 0 then d else x

/-- JS `x || d` for an optional string (`""` is falsy). -/
def jsOrStr (v : Option String) (d : String) : String :=
  match v with
  | none => d
  | some x => if x = "" then d else x

/-- `SessionOptions` from `src/types.ts` (the required `jwtProvider`
callback is external I/O and is not modelled). -/
structure SessionOptions where
  url : Option String
  reconnectTimeout : Option ℚ
  maxReconnectTimeout : Option ℚ
  shouldReconnect : Option Bool
  cacheEnabled : Option Bool
  cacheDbName : Option String
  dedupWindow : Option ℚ
  cacheMode : Option CacheMode
deriving DecidableEq

/-- `Config` from `src/types.ts`: internal configuration with defaults
applied. -/
structure Config where
  url : String
  reconnectTimeout : ℚ
  maxReconnectTimeout : ℚ
  shouldReconnect : Bool
  cacheEnabled : Bool
  cacheDbName : String
  dedupWindow : ℚ
  cacheMode : CacheMode
deriving DecidableEq

/-- The `Config` constructor (`src/types.ts:47-60`), including the JS `||`
defaulting and the `!== false` tests. -/
def Config.ofOptions (o : SessionOptions) : Config :=
  { url := jsOrStr o.url "wss://prod.ws.exoquic.com/v3/connect"
    reconnectTimeout := jsOrQ o.reconnectTimeout 1000
    maxReconnectTimeout := jsOrQ o.maxReconnectTimeout 10000
    shouldReconnect := o.shouldReconnect ≠ some false
    cacheEnabled := o.cacheEnabled ≠ some false
    cacheDbName := jsOrStr o.cacheDbName "exoquic-cache-v3"
    dedupWindow := jsOrQ o.dedupWindow 1000
    cacheMode := o.cacheMode.getD CacheMode.start }

/-- All-default options (every optional field absent). -/
def defaultOptions : SessionOptions :=
  { url := none, reconnectTimeout := none, maxReconnectTimeout := none
    shouldReconnect := none, cacheEnabled := none, cacheDbName := none
    dedupWindow := none, cacheMode := none }

/-- The configuration obtained from all-default options. -/
def cfgDefault : Config := Config.ofOptions defaultOptions

/-- `Math.min` on the (always finite, non-NaN) millisecond values used by
the backoff computation. -/
def ratMin (a b : ℚ) : ℚ := if a ≤ b then a else b

/-- Replace the value under a key in an insertion-ordered association list,
or append it — the behaviour of `Map.set` on a JS `Map` (an existing key
keeps its position in iteration order). -/
def setAssoc {κ β : Type} [DecidableEq κ] (l : List (κ × β)) (k : κ) (v : β) :
    List (κ × β) :=
  match l with
  | [] => [(k, v)]
  | (k', v') :: rest => if k' = k then (k, v) :: rest else (k', v') :: setAssoc rest k v

/-- Remove a key — the behaviour of `Map.delete`. -/
def eraseAssoc {κ β : Type} [DecidableEq κ] (l : List (κ × β)) (k : κ) :
    List (κ × β) :=
  l.filter (fun p => p.1 != k)

/-- `SourceManager` state (`src/source.ts:3-6`): per-sid active source
generation and per-sid buffered batches, both JS `Map`s. -/
structure SourceManager where
  activeSources : List (String × Nat)
  bufferedEvents : List (String × List Batch)
deriving DecidableEq

/-- `SourceManager.bufferEvent` (`src/source.ts:42-49`): append the batch to
the sid's buffer, creating the buffer if absent. -/
def SourceManager.bufferEvent (s : SourceManager) (sid : String) (batch : Batch) :
    SourceManager :=
  match s.bufferedEvents.lookup sid with
  | none => { s with bufferedEvents := setAssoc s.bufferedEvents sid [batch] }
  | some buf => { s with bufferedEvents := setAssoc s.bufferedEvents sid (buf ++ [batch]) }

/-- `SourceManager.processBufferedEvents` (`src/source.ts:52-62`): take the
sid's buffered batches out of the buffer map (empty result if none). -/
def SourceManager.processBufferedEvents (s : SourceManager) (sid : String) :
    List Batch × SourceManager :=
  match s.bufferedEvents.lookup sid with
  | none => ([], s)
  | some buf => (buf, { s with bufferedEvents := eraseAssoc s.bufferedEvents sid })

/-- `SourceManager.handleSourceChange` (`src/source.ts:8-26`): no-op if the
signalled source already is the active one; otherwise record it, and flush
the sid's buffer exactly on the transition from recorded source 1 to 2. -/
def SourceManager.handleSourceChange (s : SourceManager) (frame : OnSrcFrame) :
    List Batch × SourceManager :=
  let newSource := frame.src
  let activeSource := s.activeSources.lookup frame.sid
  if activeSource = some newSource then ([], s)
  else
    let oldSource := activeSource
    let s1 : SourceManager :=
      { s with activeSources := setAssoc s.activeSources frame.sid newSource }
    if newSource = 2 ∧ oldSource = some 1 then
      s1.processBufferedEvents frame.sid
    else
      ([], s1)

/-- `SourceManager.processEventFrame` (`src/source.ts:28-40`): `true` means
"from the active source, process immediately"; otherwise the batch is
buffered and `false` ("held") is returned.  NOTE: nothing in the repository
ever calls this method — see the claim about source-mismatch buffering. -/
def SourceManager.processEventFrame (s : SourceManager) (frame : EventFrame) :
    Bool × SourceManager :=
  let source := frame.src
  let activeSource := s.activeSources.lookup frame.sid
  if activeSource = some source then
    (true, s)
  else
    (false, s.bufferEvent frame.sid frame.batch)

/-- A record of the `sids` object store (`SessionData` in
`src/session.ts:4-8`), keyed by `destination`. -/
structure SessionData where
  destination : String
  sid : String
  gid : Option String
deriving DecidableEq

/-- A value of the `events` object store (`EventCacheEntry` in the cache
manager source).  The store uses out-of-line `autoIncrement` keys
(`src/index.ts:80-82`), so the stored value carries no key/`id` property;
the list order of `Db.events` is insertion (= primary key) order. -/
structure EventCacheEntry where
  destination : String
  sid : String
  batch : Batch
deriving DecidableEq

/-- The shared IndexedDB database (`src/index.ts:75-102`): the `sids` store
(keyed by destination) and the `events` store (insertion-ordered). -/
structure Db where
  sids : List SessionData
  events : List EventCacheEntry
deriving DecidableEq

/-- Which underlying IndexedDB operations fail; the all-`false` oracle is a
failure-free run.  One flag per `try`-block of the source. -/
structure FailOracle where
  storeSessionIdFails : Bool
  updateGidFails : Bool
  getSessionDataFails : Bool
  removeDestinationFails : Bool
  clearEventsFails : Bool
  storeEventFails : Bool
  getEventsBySidFails : Bool
deriving DecidableEq

/-- The failure-free oracle. -/
def oracleOk : FailOracle :=
  { storeSessionIdFails := false, updateGidFails := false
    getSessionDataFails := false, removeDestinationFails := false
    clearEventsFails := false, storeEventFails := false
    getEventsBySidFails := false }

/-- Ambient store context: whether `this.db` is non-null, and the failure
oracle for the underlying IndexedDB operations. -/
structure StoreCtx where
  dbAvailable : Bool
  oracle : FailOracle
deriving DecidableEq

/-- The store context of a normal run: database initialized, no failures. -/
def ctxOk : StoreCtx := { dbAvailable := true, oracle := oracleOk }

/-- Overwrite-or-insert a record of the `sids` store (IndexedDB `put` with
keyPath `destination`). -/
def putSession (l : List SessionData) (sd : SessionData) : List SessionData :=
  match l with
  | [] => [sd]
  | x :: rest =>
    if x.destination = sd.destination then sd :: rest else x :: putSession rest sd

/-- `SessionIdManager.storeSessionId` (`src/session.ts:22-43`): upsert
`{destination, sid, gid: undefined}`; storage failure is re-thrown. -/
def storeSessionId (ctx : StoreCtx) (sid destination : String) (db : Db) :
    Except Unit Db :=
  if ¬ctx.dbAvailable then Except.ok db
  else if ctx.oracle.storeSessionIdFails then Except.error ()
  else Except.ok
    { db with sids := putSession db.sids { destination := destination, sid := sid, gid := none } }

/-- `SessionIdManager.updateGid` (`src/session.ts:45-61`): read the record
by destination; if present, overwrite its `gid`; no-op when absent; storage
failure is re-thrown. -/
def updateGid (ctx : StoreCtx) (destination gid : String) (db : Db) :
    Except Unit Db :=
  if ¬ctx.dbAvailable then Except.ok db
  else if ctx.oracle.updateGidFails then Except.error ()
  else
    match db.sids.find? (fun sd => sd.destination == destination) with
    | some sd => Except.ok { db with sids := putSession db.sids { sd with gid := some gid } }
    | none => Except.ok db

/-- `SessionIdManager.getSessionData` (`src/session.ts:63-75`): read the
record by destination; failures degrade to `undefined`. -/
def getSessionData (ctx : StoreCtx) (destination : String) (db : Db) :
    Option SessionData :=
  if ¬ctx.dbAvailable then none
  else if ctx.oracle.getSessionDataFails then none
  else db.sids.find? (fun sd => sd.destination == destination)

/-- `SessionIdManager.getGid` (`src/session.ts:77-80`): `sessionData?.gid`. -/
def getGid (ctx : StoreCtx) (destination : String) (db : Db) : Option String :=
  (getSessionData ctx destination db).bind (fun sd => sd.gid)

/-- `SessionIdManager.removeDestination` (`src/session.ts:97-109`): delete
the `sids` record by destination; storage failure is re-thrown. -/
def removeDestination (ctx : StoreCtx) (destination : String) (db : Db) :
    Except Unit Db :=
  if ¬ctx.dbAvailable then Except.ok db
  else if ctx.oracle.removeDestinationFails then Except.error ()
  else Except.ok { db with sids := db.sids.filter (fun sd => sd.destination != destination) }

/-- `SessionIdManager.clearEventsByDestination` (`src/session.ts:111-128`):
fetch the destination's cached entries and delete each by `event.id`.  The
`events` store uses out-of-line `autoIncrement` keys and `storeEvent` writes
values without an `id` property, so for every fetched entry `event.id` is
`undefined` and `tx.store.delete(undefined)` raises `DataError`; the catch
block re-throws it.  Hence: success (and no change) when the destination has
no cached entries, error (and no change) as soon as it has at least one. -/
def clearEventsByDestination (ctx : StoreCtx) (destination : String) (db : Db) :
    Except Unit Db :=
  if ¬ctx.dbAvailable then Except.ok db
  else if ctx.oracle.clearEventsFails then Except.error ()
  else if (db.events.filter (fun e => e.destination == destination)).isEmpty then
    Except.ok db
  else Except.error ()

/-- `CacheManager.storeEvent` (cache manager source): no-op when caching is
disabled or the database is unavailable; otherwise append
`{destination, sid, batch}` to the `events` store; failure is re-thrown. -/
def storeEvent (cfg : Config) (ctx : StoreCtx) (batch : Batch) (db : Db) :
    Except Unit Db :=
  if ¬cfg.cacheEnabled then Except.ok db
  else if ¬ctx.dbAvailable then Except.ok db
  else if ctx.oracle.storeEventFails then Except.error ()
  else Except.ok
    { db with events := db.events ++
        [{ destination := batch.destination, sid := batch.sid, batch := batch }] }

/-- `CacheManager.getEventsBySid` (cache manager source): empty when caching
is disabled, the database is unavailable, or the read fails; otherwise the
sid's entries in insertion order (the `sid` index sorts equal index keys by
ascending primary key, which is the auto-increment insertion order). -/
def getEventsBySid (cfg : Config) (ctx : StoreCtx) (sid : String) (db : Db) :
    List Batch :=
  if ¬cfg.cacheEnabled then []
  else if ¬ctx.dbAvailable then []
  else if ctx.oracle.getEventsBySidFails then []
  else (db.events.filter (fun e => e.sid == sid)).map (fun e => e.batch)

/-- Combined mutable state of the event/subscription pipeline: the shared
database, the `SourceManager`, the pending-subscription map
(`src/subscription.ts:13`, a JS `Map` in insertion order), the set of
destinations having at least one registered listener
(`src/events.ts:14`; handler identity and per-handler error isolation do
not affect which payloads are delivered and are abstracted away), and a log
of dispatches `(destination, decoded payloads)` — one entry per
`dispatch` call that reaches the registered handlers
(`src/events.ts:90-104`). -/
@[ext]
structure SystemState where
  db : Db
  sourceMgr : SourceManager
  pendingSubscriptions : List (Nat × SubscribeFrame)
  destinationHandlers : List String
  dispatchLog : List (String × List String)
deriving DecidableEq

/-- `EventProcessor.dispatch` (`src/events.ts:90-104`): return early when
the destination has no handlers, otherwise invoke them with the decoded
payload array (observed here as a log entry). -/
def dispatch (s : SystemState) (data : List String) (dest : String) : SystemState :=
  if dest ∈ s.destinationHandlers then
    { s with dispatchLog := s.dispatchLog ++ [(dest, data)] }
  else
    s

/-- `EventProcessor.processEvent` (`src/events.ts:73-88`): cache the batch
unless caching is disabled or `skipCache` is set (a cache failure is only
logged — the `.catch` swallows it), then dispatch the decoded payloads when
the batch has a (truthy) destination.  Never rejects. -/
def processEvent (cfg : Config) (ctx : StoreCtx) (s : SystemState)
    (batch : Batch) (skipCache : Bool) : SystemState :=
  let s :=
    if cfg.cacheEnabled && !skipCache then
      match storeEvent cfg ctx batch s.db with
      | Except.ok db' => { s with db := db' }
      | Except.error _ => s
    else s
  let eventData := batch.data.map (fun e => e.data)
  if batch.destination ≠ "" then
    dispatch s eventData batch.destination
  else
    s

/-- `EventProcessor.processSourceChange` (`src/events.ts:63-71`): delegate
to the `SourceManager` and run every released batch through the normal
delivery path (per-batch failures are caught and logged). -/
def processSourceChange (cfg : Config) (ctx : StoreCtx) (s : SystemState)
    (frame : OnSrcFrame) : SystemState :=
  let res := s.sourceMgr.handleSourceChange frame
  let s1 : SystemState := { s with sourceMgr := res.2 }
  res.1.foldl (fun t batch => processEvent cfg ctx t batch false) s1

/-- `EventProcessor.processEventFrame` (`src/events.ts:29-61`): skip batches
without a destination; with no (truthy) stored gid, deliver the whole batch
and then persist the batch's trailing gid; with a stored gid, deliver
non-empty batches unfiltered and advance the gid.  A failing `updateGid`
rejects the whole call.  Note that the `SourceManager` is never consulted
here. -/
def processEventFrame (cfg : Config) (ctx : StoreCtx) (s : SystemState)
    (frame : EventFrame) : Except Unit SystemState :=
  let batch := frame.batch
  let destination := batch.destination
  let latestGid := batch.gid
  if destination = "" then Except.ok s
  else
    let storedGid := getGid ctx destination s.db
    if !optTruthy storedGid then
      let s1 := processEvent cfg ctx s { batch with sid := frame.sid } false
      match updateGid ctx destination latestGid s1.db with
      | Except.ok db' => Except.ok { s1 with db := db' }
      | Except.error e => Except.error e
    else if batch.data.length > 0 then
      let filteredBatch : Batch :=
        { destination := batch.destination, gid := batch.gid
          data := batch.data, sid := frame.sid }
      let s1 := processEvent cfg ctx s filteredBatch false
      match updateGid ctx destination latestGid s1.db with
      | Except.ok db' => Except.ok { s1 with db := db' }
      | Except.error e => Except.error e
    else
      Except.ok s

/-- One iteration of the loop in `SubscriptionManager.subscribe`
(`src/subscription.ts:47-62`): read the destination's session data, build
the subscribe frame — whose `cache` field is the literal `'start'` in the
source — record it as pending under the generated correlation id, and hand
it to `connection.sendFrame`.  Returns the new state and the frame sent. -/
def subscribeStep (ctx : StoreCtx) (s : SystemState) (dest : String) (cid : Nat) :
    SystemState × SubscribeFrame :=
  let sessionData := getSessionData ctx dest s.db
  let frame : SubscribeFrame :=
    { destination := dest
      cid := cid
      sid := sessionData.map (fun sd => sd.sid)
      gid := sessionData.bind (fun sd => sd.gid)
      cache := CacheMode.start }
  ({ s with pendingSubscriptions := setAssoc s.pendingSubscriptions cid frame }, frame)

/-- `SubscriptionManager.handleSubAck` (`src/subscription.ts:66-114`).  The
`for … break` loop matches the FIRST pending entry regardless of the
acknowledgment; `if (matchedCid && matchedFrame)` sends a correlation id of
`0` to the "unknown subscription" branch because `0` is falsy.  Branch 1
(no stored sid at send time) persists the acknowledged sid and can reject;
branch 2 (differing sid) clears the destination's cached events, removes
the stale record and stores the new sid, with any failure caught and
logged (partial effects are kept); branch 3 (equal sid) replays the sid's
cached batches through `processEvent` with `skipCache` set.  A matched
entry is removed from the pending map afterwards. -/
def handleSubAck (cfg : Config) (ctx : StoreCtx) (s : SystemState)
    (frame : SubAckFrame) : Except Unit SystemState :=
  match s.pendingSubscriptions with
  | [] => Except.ok s
  | (matchedCid, matchedFrame) :: _ =>
    if matchedCid = 0 then Except.ok s
    else
      let originalSid := matchedFrame.sid
      let newSid := frame.sid
      let core : Except Unit SystemState :=
        if !optTruthy originalSid then
          match storeSessionId ctx newSid matchedFrame.destination s.db with
          | Except.ok db' => Except.ok { s with db := db' }
          | Except.error e => Except.error e
        else if originalSid ≠ some newSid then
          Except.ok
            (match clearEventsByDestination ctx matchedFrame.destination s.db with
             | Except.error _ => s
             | Except.ok db1 =>
               match removeDestination ctx matchedFrame.destination db1 with
               | Except.error _ => { s with db := db1 }
               | Except.ok db2 =>
                 match storeSessionId ctx newSid matchedFrame.destination db2 with
                 | Except.error _ => { s with db := db2 }
                 | Except.ok db3 => { s with db := db3 })
        else
          let batches := getEventsBySid cfg ctx frame.sid s.db
          Except.ok (batches.foldl (fun t batch => processEvent cfg ctx t batch true) s)
      match core with
      | Except.ok s' =>
        Except.ok { s' with pendingSubscriptions := eraseAssoc s'.pendingSubscriptions matchedCid }
      | Except.error e => Except.error e

/-- `ConnectionState` from `src/connection.ts:4-9`. -/
inductive ConnectionState
  | CLOSED
  | CONNECTING
  | OPEN
  | CLOSING
deriving DecidableEq

/-- A reconnect timer created by `setTimeout` in `handleClose`
(`src/connection.ts:109-112`): it was scheduled with delay `delay`
(the value of `this.reconnectMs` at scheduling time) and its callback will
set `this.reconnectMs` to the captured `wait` value `newMs` before calling
`open()`. -/
structure PendingTimer where
  delay : ℚ
  newMs : ℚ
deriving DecidableEq

/-- `Connection` state (`src/connection.ts:13-25`): the current state, the
socket reference (`this.ws !== null`), the backoff value `reconnectMs`,
the outstanding reconnect timers (never cancelled anywhere in the source),
whether frame handlers are registered (`close()` clears them), and the log
of frames passed to `ws.send`. -/
structure Connection where
  state : ConnectionState
  wsPresent : Bool
  reconnectMs : ℚ
  timers : List PendingTimer
  frameHandlersActive : Bool
  sentFrames : List Frame
deriving DecidableEq

/-- The `Connection` constructor (`src/connection.ts:21-25`). -/
def Connection.init (cfg : Config) : Connection :=
  { state := ConnectionState.CLOSED
    wsPresent := false
    reconnectMs := cfg.reconnectTimeout
    timers := []
    frameHandlersActive := false
    sentFrames := [] }

/-- `Connection.handleClose` (`src/connection.ts:94-113`): settle to
`CLOSED`; unless the close code is the reserved `1000` or reconnection is
disabled, schedule a reconnect timer after the CURRENT backoff delay whose
callback will raise the stored delay to `min(reconnectMs * 1.5,
maxReconnectTimeout)`. -/
def Connection.handleClose (cfg : Config) (c : Connection) (code : Nat) : Connection :=
  let c1 : Connection := { c with state := ConnectionState.CLOSED, wsPresent := false }
  if code = 1000 ∨ ¬cfg.shouldReconnect then c1
  else
    let wait := ratMin (c1.reconnectMs * (3 / 2)) cfg.maxReconnectTimeout
    { c1 with timers := c1.timers ++ [{ delay := c1.reconnectMs, newMs := wait }] }

/-- The externally triggered transitions of the connection state machine:
a call to `open()` (`src/connection.ts:27-32`), the in-flight attempt
succeeding (`ws.onopen`, `src/connection.ts:44-51`) or failing
(`ws.onerror`, `src/connection.ts:53-58`), a transport close event
(`ws.onclose` → `handleClose`), the earliest outstanding reconnect timer
firing (`src/connection.ts:109-112`), and a call to `close(code, reason)`
(`src/connection.ts:156-170`). -/
inductive ConnEvent
  | openCall
  | openSuccess
  | openFailure
  | closeEvt (code : Nat)
  | timerFire
  | closeCall (code : Nat)

/-- One transition of the connection state machine.  `openCall` returns
immediately when already `OPEN` or `CONNECTING`; `openSuccess` (only
meaningful for an in-flight attempt) moves to `OPEN`, resets the backoff to
the configured initial delay and installs the socket handlers; `timerFire`
runs a scheduled callback: store the captured backoff value, then `open()`;
`closeCall` transitions straight to `CLOSED`, drops the socket reference
and clears the frame handlers — it cancels no timer and leaves the old
socket's `onclose` callback (`handleClose`) in place. -/
def Connection.step (cfg : Config) (c : Connection) : ConnEvent → Connection
  | ConnEvent.openCall =>
    if c.state = ConnectionState.OPEN ∨ c.state = ConnectionState.CONNECTING then c
    else { c with state := ConnectionState.CONNECTING }
  | ConnEvent.openSuccess =>
    if c.state = ConnectionState.CONNECTING then
      { c with state := ConnectionState.OPEN
               reconnectMs := cfg.reconnectTimeout
               wsPresent := true
               frameHandlersActive := true }
    else c
  | ConnEvent.openFailure =>
    if c.state = ConnectionState.CONNECTING then
      { c with state := ConnectionState.CLOSED }
    else c
  | ConnEvent.closeEvt code => c.handleClose cfg code
  | ConnEvent.timerFire =>
    match c.timers with
    | [] => c
    | t :: rest =>
      let c1 : Connection := { c with reconnectMs := t.newMs, timers := rest }
      if c1.state = ConnectionState.OPEN ∨ c1.state = ConnectionState.CONNECTING then c1
      else { c1 with state := ConnectionState.CONNECTING }
  | ConnEvent.closeCall _ =>
    if c.state = ConnectionState.CLOSED then c
    else { c with state := ConnectionState.CLOSED
                  wsPresent := false
                  frameHandlersActive := false }

/-- Run the connection state machine over a sequence of events. -/
def Connection.run (cfg : Config) (c : Connection) (tr : List ConnEvent) : Connection :=
  tr.foldl (fun c e => c.step cfg e) c

/-- How an in-flight `open()` attempt resolves: `ws.onopen`, `ws.onerror`,
the JWT provider throwing, or the 10-second connect timeout. -/
inductive OpenOutcome
  | success
  | wsError
  | jwtError
  | timeoutFired

/-- The promise-level view of `Connection.open` (`src/connection.ts:27-65`)
for a single call: when already `OPEN` or `CONNECTING` it resolves
immediately without any effect ("no-op, single in-flight attempt");
otherwise the attempt starts and resolves according to `outcome`, with the
error messages of the source. -/
def Connection.openAwait (cfg : Config) (c : Connection) (outcome : OpenOutcome) :
    Connection × Except String Unit :=
  if c.state = ConnectionState.OPEN ∨ c.state = ConnectionState.CONNECTING then
    (c, Except.ok ())
  else
    let c1 : Connection := { c with state := ConnectionState.CONNECTING }
    match outcome with
    | OpenOutcome.success =>
      ({ c1 with state := ConnectionState.OPEN
                 reconnectMs := cfg.reconnectTimeout
                 wsPresent := true
                 frameHandlersActive := true }, Except.ok ())
    | OpenOutcome.wsError =>
      ({ c1 with state := ConnectionState.CLOSED }, Except.error "Failed to connect")
    | OpenOutcome.jwtError =>
      ({ c1 with state := ConnectionState.CLOSED },
        Except.error "Failed to get Exoquic access token")
    | OpenOutcome.timeoutFired =>
      (c1, Except.error "Connection timeout")

/-- `Connection.sendFrame` (`src/connection.ts:129-135`): requires state
`OPEN` and a live socket, otherwise throws `'WebSocket not open'`. -/
def Connection.sendFrame (c : Connection) (frame : Frame) : Except String Connection :=
  if c.state ≠ ConnectionState.OPEN ∨ c.wsPresent = false then
    Except.error "WebSocket not open"
  else
    Except.ok { c with sentFrames := c.sentFrames ++ [frame] }

/-- `Connection.produce` (`src/connection.ts:137-150`): open the connection
when not `OPEN` (awaiting the nested `open()`), then send the publish
frame. -/
def Connection.produce (cfg : Config) (c : Connection) (outcome : OpenOutcome)
    (destination data : String) : Connection × Except String Unit :=
  let r :=
    if c.state ≠ ConnectionState.OPEN then Connection.openAwait cfg c outcome
    else (c, Except.ok ())
  match r.2 with
  | Except.error e => (r.1, Except.error e)
  | Except.ok _ =>
    match r.1.sendFrame (Frame.publish { destination := destination, data := data }) with
    | Except.ok c2 => (c2, Except.ok ())
    | Except.error e => (r.1, Except.error e)

/-! Concrete per-claim inputs.  Each group is used by exactly one claim's
theorems. -/

/-- A configuration with caching disabled (used where cache writes are
irrelevant to the behaviour under scrutiny). -/
def cfgNoCache : Config :=
  Config.ofOptions { defaultOptions with cacheEnabled := some false }

/-- The payloads delivered by one `processEvent` call for a batch, given the
destinations that have registered handlers: one dispatch-log entry when the
batch has a truthy destination with handlers, nothing otherwise. -/
def deliveredOutput (handlers : List String) (b : Batch) :
    List (String × List String) :=
  if b.destination ≠ "" ∧ b.destination ∈ handlers then
    [(b.destination, b.data.map (fun e => e.data))]
  else []

/-- A one-event batch for destination `"orders"` produced by source 2. -/
def batchC1 : Batch :=
  { destination := "orders", gid := "g1"
    data := [{ gid := "g1", data := "v1" }], sid := "s1" }

/-- Fresh pipeline state with a listener on `"orders"`. -/
def sC1 : SystemState :=
  { db := { sids := [], events := [] }
    sourceMgr := { activeSources := [], bufferedEvents := [] }
    pendingSubscriptions := []
    destinationHandlers := ["orders"]
    dispatchLog := [] }

/-- `sC1` after an `onsrc{sid:"s1", src:1}` frame: the active source for
`"s1"` is now 1. -/
def sC1mid : SystemState :=
  processSourceChange cfgNoCache ctxOk sC1 { src := 1, sid := "s1" }

/-- An event frame for sid `"s1"` stamped with source 2, arriving while the
active source for `"s1"` is 1. -/
def evC1 : EventFrame := { src := 2, batch := batchC1, sid := "s1" }

/-- The state actually produced by processing `evC1`: the batch was
dispatched, nothing was buffered. -/
def sC1after : SystemState :=
  { sC1mid with dispatchLog := [("orders", ["v1"])] }

/-- The pending subscribe frame for C2's scenario (sent with sid "s1"). -/
def sfC2 : SubscribeFrame :=
  { destination := "orders", cid := 5, sid := some "s1", gid := none
    cache := CacheMode.start }

/-- State for C2's scenario: stored record `{orders, s1}`, ONE cached event
for `"orders"`, and the pending subscription. -/
def sC2 : SystemState :=
  { db := { sids := [{ destination := "orders", sid := "s1", gid := none }]
            events := [{ destination := "orders", sid := "s1", batch := batchC1 }] }
    sourceMgr := { activeSources := [], bufferedEvents := [] }
    pendingSubscriptions := [(5, sfC2)]
    destinationHandlers := []
    dispatchLog := [] }

/-- What `handleSubAck` actually leaves behind in C2's scenario: only the
pending entry is removed; the database is untouched. -/
def sC2after : SystemState := { sC2 with pendingSubscriptions := [] }

/-- Shorthand for the state reached from a fresh connection by a sequence
of connection events. -/
def reachFrom (cfg : Config) (tr : List ConnEvent) : Connection :=
  Connection.run cfg (Connection.init cfg) tr

/-- A one-event batch for C4's scenario. -/
def batchC4 : Batch :=
  { destination := "orders", gid := "g1"
    data := [{ gid := "g1", data := "v1" }], sid := "s1" }

/-- State for C4's counterexample: NO session record exists for `"orders"`
(hence no stored cursor), a listener is registered. -/
def sC4 : SystemState :=
  { db := { sids := [], events := [] }
    sourceMgr := { activeSources := [], bufferedEvents := [] }
    pendingSubscriptions := []
    destinationHandlers := ["orders"]
    dispatchLog := [] }

/-- The event frame of C4's counterexample. -/
def evC4 : EventFrame := { src := 1, batch := batchC4, sid := "s1" }

/-- The state actually produced: the batch was delivered in full, but no
cursor was stored (`updateGid` is a no-op without a record). -/
def sC4after : SystemState := { sC4 with dispatchLog := [("orders", ["v1"])] }

/-- State for C4's amended-claim witness: a record for `"orders"` exists
with no cursor yet. -/
def sC4w : SystemState :=
  { db := { sids := [{ destination := "orders", sid := "s1", gid := none }]
            events := [] }
    sourceMgr := { activeSources := [], bufferedEvents := [] }
    pendingSubscriptions := []
    destinationHandlers := ["orders"]
    dispatchLog := [] }

/-- Pending subscribe frame for C5's witness (sent with sid "s1"). -/
def sfC5 : SubscribeFrame :=
  { destination := "orders", cid := 9, sid := some "s1", gid := none
    cache := CacheMode.start }

/-- State for C5's witness: record `{orders, s1}`, two cached batches for
sid "s1", a listener on `"orders"`, and the pending subscription. -/
def sC5 : SystemState :=
  { db := { sids := [{ destination := "orders", sid := "s1", gid := some "g1" }]
            events :=
              [{ destination := "orders", sid := "s1", batch := batchC1 },
               { destination := "orders", sid := "s1"
                 batch := { destination := "orders", gid := "g2"
                            data := [{ gid := "g2", data := "v2" }], sid := "s1" } }] }
    sourceMgr := { activeSources := [], bufferedEvents := [] }
    pendingSubscriptions := [(9, sfC5)]
    destinationHandlers := ["orders"]
    dispatchLog := [] }

/-- A pending subscribe frame whose generated correlation id is `0`
(`Math.floor(Math.random() * 1_000_000_000)` can be `0`). -/
def sfC6 : SubscribeFrame :=
  { destination := "orders", cid := 0, sid := none, gid := none
    cache := CacheMode.start }

/-- State for C6's scenario: the first (and only) pending entry has
correlation id 0. -/
def sC6 : SystemState :=
  { db := { sids := [], events := [] }
    sourceMgr := { activeSources := [], bufferedEvents := [] }
    pendingSubscriptions := [(0, sfC6)]
    destinationHandlers := []
    dispatchLog := [] }

/-- C7's scenario: connect successfully, call `close(1000, "bye")`, then a
network-drop transport close event (code 1006) arrives on the old socket,
whose `onclose` handler was never removed. -/
def trC7 : List ConnEvent :=
  [ConnEvent.openCall, ConnEvent.openSuccess,
   ConnEvent.closeCall 1000, ConnEvent.closeEvt 1006]

/-- The connection reached in C7's scenario just after `close(1000, "bye")`
(connected successfully first, so the socket's handlers were installed). -/
def cC7mid : Connection :=
  { state := ConnectionState.CLOSED
    wsPresent := false
    reconnectMs := 1000
    timers := []
    frameHandlersActive := false
    sentFrames := [] }

/-- A store context whose `sids`-store delete fails. -/
def ctxRemoveFail : StoreCtx :=
  { dbAvailable := true
    oracle := { oracleOk with removeDestinationFails := true } }

/-- Pending subscribe frame for C8's scenario (sent with sid "s1"). -/
def sfC8 : SubscribeFrame :=
  { destination := "orders", cid := 5, sid := some "s1", gid := none
    cache := CacheMode.start }

/-- State for C8's scenario: record `{orders, s1}`, no cached events, the
pending subscription. -/
def sC8 : SystemState :=
  { db := { sids := [{ destination := "orders", sid := "s1", gid := none }]
            events := [] }
    sourceMgr := { activeSources := [], bufferedEvents := [] }
    pendingSubscriptions := [(5, sfC8)]
    destinationHandlers := []
    dispatchLog := [] }

/-- Options selecting `cacheMode: 'never'`. -/
def optsNeverCache : SessionOptions :=
  { defaultOptions with cacheMode := some CacheMode.never }

/-- The configuration produced from `optsNeverCache`. -/
def cfgNeverCache : Config := Config.ofOptions optsNeverCache

/-- An empty pipeline state for C9. -/
def sC9 : SystemState :=
  { db := { sids := [], events := [] }
    sourceMgr := { activeSources := [], bufferedEvents := [] }
    pendingSubscriptions := []
    destinationHandlers := []
    dispatchLog := [] }

/-- Backoff-boundedness invariant: the stored backoff delay and, for every
outstanding reconnect timer, both its scheduled delay and the captured next
backoff value, are bounded by the configured ceiling. -/
def ConnTimersOk (cfg : Config) (c : Connection) : Prop :=
  c.reconnectMs ≤ cfg.maxReconnectTimeout ∧
  ∀ t ∈ c.timers,
    t.delay ≤ cfg.maxReconnectTimeout ∧ t.newMs ≤ cfg.maxReconnectTimeout

/-- A connection with an open attempt in flight. -/
def cC10 : Connection :=
  { state := ConnectionState.CONNECTING
    wsPresent := false
    reconnectMs := 1000
    timers := []
    frameHandlersActive := false
    sentFrames := [] }

/-! Theorems. -/

theorem ratMin_le_right (a b : ℚ) : ratMin a b ≤ b := by
  unfold ratMin
  split
  · assumption
  · exact le_refl b

/-- C1: an event frame stamped with source 2 for sid `"s1"`, arriving while
the recorded active source for `"s1"` is 1, is delivered to the listeners
immediately and nothing is buffered: the event path
(`EventProcessor.processEventFrame`) never consults the `SourceManager`,
whose buffering gate `processEventFrame` is dead code.  The claim says the
batch is buffered and withheld until the 1→2 source switch. -/
theorem mismatched_source_event_delivered_immediately :
    sC1mid.sourceMgr.activeSources = [("s1", 1)] ∧
    processEventFrame cfgNoCache ctxOk sC1mid evC1 = Except.ok sC1after ∧
    sC1after.dispatchLog = [("orders", ["v1"])] ∧
    sC1after.sourceMgr.bufferedEvents = [] :=
  ⟨rfl, rfl, rfl, rfl⟩

/-- C2: in the session-reset branch (acknowledged sid "s2" differs from the
sid "s1" of the matched pending frame), with ONE cached event present for
the destination, `clearEventsByDestination` fails (it deletes by the
nonexistent `id` property of the cached values), the `catch` swallows the
error, and the state keeps the OLD record `{orders, s1}` and the cached
event — the claimed reset invariant does not hold. -/
theorem session_reset_leaves_stale_record_when_cache_nonempty :
    handleSubAck cfgDefault ctxOk sC2 { sid := "s2" } = Except.ok sC2after ∧
    (getSessionData ctxOk "orders" sC2after.db).map (fun sd => sd.sid) = some "s1" ∧
    sC2after.db.events ≠ [] :=
  ⟨rfl, rfl, by decide⟩

/-- C4 counterexample: an event frame for a destination with NO session
record (hence no stored cursor) is delivered in full, but afterwards no
cursor is stored — `updateGid` is a no-op without a record — refuting the
claim that the stored cursor then equals the batch's trailing gid. -/
theorem first_batch_cursor_not_stored_without_record :
    processEventFrame cfgNoCache ctxOk sC4 evC4 = Except.ok sC4after ∧
    sC4after.dispatchLog = [("orders", batchC4.data.map (fun e => e.data))] ∧
    getGid ctxOk "orders" sC4after.db ≠ some batchC4.gid :=
  ⟨rfl, rfl, by decide⟩

/-- C6: when the first pending entry's correlation id is 0, the guard
`if (matchedCid && matchedFrame)` treats it as falsy: the acknowledgment is
logged as unknown and dropped, and the matched pending entry is NOT
removed, refuting "removed … regardless of the value of its correlation
id".  (The lookup-failure half of the claim — log and drop without crash —
does hold.) -/
theorem suback_with_zero_cid_dropped_and_not_removed :
    handleSubAck cfgDefault ctxOk sC6 { sid := "s1" } = Except.ok sC6 ∧
    sC6.pendingSubscriptions = [(0, sfC6)] :=
  ⟨rfl, rfl⟩

/-- C8 counterexample: in the session-reset branch with a failing
`sids`-store delete, `handleSubAck` RESOLVES (the internal `try/catch`
swallows the failure and still removes the pending entry) — the claimed
rejection does not happen. -/
theorem session_reset_failure_not_rejected :
    handleSubAck cfgDefault ctxRemoveFail sC8 { sid := "s2" } =
      Except.ok { sC8 with pendingSubscriptions := [] } :=
  rfl

/-- C9: with `cacheMode: 'never'` configured, the subscribe frame built and
sent by `SubscriptionManager.subscribe` still carries the hardcoded literal
`'start'` in its `cache` field — the configured option is not forwarded. -/
theorem subscribe_frame_cache_field_hardcoded_start :
    cfgNeverCache.cacheMode = CacheMode.never ∧
    ((subscribeStep ctxOk sC9 "orders" 7).2).cache = CacheMode.start ∧
    CacheMode.start ≠ CacheMode.never :=
  ⟨rfl, rfl, by decide⟩

/-- C10: `produce` called while an open attempt is in flight
(state `CONNECTING`): the nested `open()` returns immediately without any
effect and without consulting the attempt's outcome, and `produce` then
rejects with `'WebSocket not open'`, leaving the connection (in particular
its `sentFrames` log) unchanged — no publish frame is sent or queued. -/
theorem produce_while_connecting_rejects_not_open (cfg : Config) (c : Connection)
    (outcome : OpenOutcome) (destination data : String)
    (h : c.state = ConnectionState.CONNECTING) :
    Connection.openAwait cfg c outcome = (c, Except.ok ()) ∧
    Connection.produce cfg c outcome destination data =
      (c, Except.error "WebSocket not open") := by
  have hop : Connection.openAwait cfg c outcome = (c, Except.ok ()) := by
    unfold Connection.openAwait
    rw [if_pos (Or.inr h)]
  refine ⟨hop, ?_⟩
  have hns : c.state ≠ ConnectionState.OPEN := by
    rw [h]
    intro hh
    exact ConnectionState.noConfusion hh
  unfold Connection.produce Connection.sendFrame
  rw [if_pos hns, hop]
  simp [hns]

/-- Witness for C10 at a concrete connecting connection. -/
theorem produce_while_connecting_rejects_not_open_witness :
    cC10.state = ConnectionState.CONNECTING ∧
    (Connection.openAwait cfgDefault cC10 OpenOutcome.success = (cC10, Except.ok ()) ∧
     Connection.produce cfgDefault cC10 OpenOutcome.success "orders" "v1" =
       (cC10, Except.error "WebSocket not open")) :=
  ⟨rfl, produce_while_connecting_rejects_not_open cfgDefault cC10 OpenOutcome.success
    "orders" "v1" rfl⟩

/-- C7: after `close(1000, "bye")`, a network-drop transport close event
(code 1006) on the old socket schedules a reconnect timer (delay 1000 ms,
next backoff 1500 ms): `handleClose` checks only the event's close code,
and `close()` neither latches a closed flag nor removes the old socket's
`onclose` handler nor cancels timers.  A subsequently firing timer is not a
no-op either — it starts reconnecting.  The claim requires that no
reconnect be scheduled or performed after `close()`. -/
theorem close_then_network_drop_schedules_reconnect :
    (reachFrom cfgDefault trC7).timers = [{ delay := 1000, newMs := 1500 }] ∧
    (reachFrom cfgDefault (trC7 ++ [ConnEvent.timerFire])).state =
      ConnectionState.CONNECTING := by
  have hmid : reachFrom cfgDefault
      [ConnEvent.openCall, ConnEvent.openSuccess, ConnEvent.closeCall 1000] =
        cC7mid := by
    decide
  have hfin : reachFrom cfgDefault trC7 =
      Connection.step cfgDefault cC7mid (ConnEvent.closeEvt 1006) := by
    unfold reachFrom Connection.run at hmid ⊢
    rw [show trC7 = [ConnEvent.openCall, ConnEvent.openSuccess,
        ConnEvent.closeCall 1000] ++ [ConnEvent.closeEvt 1006] from rfl,
      List.foldl_append, hmid]
    rfl
  have hstep : Connection.step cfgDefault cC7mid (ConnEvent.closeEvt 1006) =
      { cC7mid with timers := [{ delay := 1000, newMs := 1500 }] } := by
    simp only [Connection.step, Connection.handleClose]
    rw [if_neg (by decide : ¬((1006 : Nat) = 1000 ∨ ¬cfgDefault.shouldReconnect))]
    norm_num [cC7mid, ratMin, cfgDefault, Config.ofOptions, defaultOptions, jsOrQ]
  constructor
  · rw [hfin, hstep]
  · have hpre : List.foldl (fun c e => c.step cfgDefault e)
        (Connection.init cfgDefault) trC7 =
        { cC7mid with timers := [{ delay := 1000, newMs := 1500 }] } := by
      have h' := hfin
      unfold reachFrom Connection.run at h'
      rw [h', hstep]
    unfold reachFrom Connection.run
    rw [List.foldl_append, hpre]
    simp [Connection.step, cC7mid]

theorem connTimersOk_init (cfg : Config)
    (h : cfg.reconnectTimeout ≤ cfg.maxReconnectTimeout) :
    ConnTimersOk cfg (Connection.init cfg) := by
  refine ⟨h, ?_⟩
  intro t ht
  simp [Connection.init] at ht

theorem connTimersOk_step (cfg : Config) (c : Connection) (e : ConnEvent)
    (h : cfg.reconnectTimeout ≤ cfg.maxReconnectTimeout)
    (hc : ConnTimersOk cfg c) : ConnTimersOk cfg (c.step cfg e) := by
  obtain ⟨h1, h2⟩ := hc
  cases e with
  | openCall =>
    simp only [Connection.step]
    split
    · exact ⟨h1, h2⟩
    · exact ⟨h1, h2⟩
  | openSuccess =>
    simp only [Connection.step]
    split
    · exact ⟨h, h2⟩
    · exact ⟨h1, h2⟩
  | openFailure =>
    simp only [Connection.step]
    split
    · exact ⟨h1, h2⟩
    · exact ⟨h1, h2⟩
  | closeEvt code =>
    simp only [Connection.step, Connection.handleClose]
    split
    · exact ⟨h1, h2⟩
    · refine ⟨h1, ?_⟩
      intro t ht
      rw [List.mem_append] at ht
      cases ht with
      | inl hmem => exact h2 t hmem
      | inr hmem =>
        rw [List.mem_singleton] at hmem
        subst hmem
        exact ⟨h1, ratMin_le_right _ _⟩
  | timerFire =>
    simp only [Connection.step]
    cases hT : c.timers with
    | nil =>
      simp only [hT]
      exact ⟨h1, h2⟩
    | cons t rest =>
      have htm := h2 t (by rw [hT]; exact List.mem_cons_self t rest)
      have hrest : ∀ u ∈ rest,
          u.delay ≤ cfg.maxReconnectTimeout ∧ u.newMs ≤ cfg.maxReconnectTimeout := by
        intro u hu
        exact h2 u (by rw [hT]; exact List.mem_cons_of_mem t hu)
      simp only [hT]
      split
      · exact ⟨htm.2, hrest⟩
      · exact ⟨htm.2, hrest⟩
  | closeCall code =>
    simp only [Connection.step]
    split
    · exact ⟨h1, h2⟩
    · exact ⟨h1, h2⟩

theorem connTimersOk_run (cfg : Config) (c : Connection) (tr : List ConnEvent)
    (h : cfg.reconnectTimeout ≤ cfg.maxReconnectTimeout)
    (hc : ConnTimersOk cfg c) : ConnTimersOk cfg (Connection.run cfg c tr) := by
  induction tr generalizing c with
  | nil => exact hc
  | cons e rest ih => exact ih (c.step cfg e) (connTimersOk_step cfg c e h hc)

/-- C3 (for configurations whose initial backoff does not already exceed
the ceiling, as the defaults 1000/10000 do): along every event sequence,
(1) every scheduled reconnect delay is bounded by `maxReconnectTimeout`;
(2) an unsolicited close (code ≠ 1000, reconnection enabled) schedules a
timer after the current backoff whose captured next backoff is
`min(current × 1.5, maxReconnectTimeout)`; (3) that captured value becomes
the stored backoff when the timer fires; and (4) a successful open resets
the stored backoff to `reconnectTimeout`. -/
theorem backoff_delay_bounded_multiplied_and_reset (cfg : Config)
    (h : cfg.reconnectTimeout ≤ cfg.maxReconnectTimeout) (tr : List ConnEvent) :
    (∀ t ∈ (reachFrom cfg tr).timers, t.delay ≤ cfg.maxReconnectTimeout) ∧
    (∀ code : Nat, code ≠ 1000 → cfg.shouldReconnect = true →
      ((reachFrom cfg tr).step cfg (ConnEvent.closeEvt code)).timers =
        (reachFrom cfg tr).timers ++
          [{ delay := (reachFrom cfg tr).reconnectMs
             newMs := ratMin ((reachFrom cfg tr).reconnectMs * (3 / 2))
               cfg.maxReconnectTimeout }]) ∧
    (∀ t rest, (reachFrom cfg tr).timers = t :: rest →
      ((reachFrom cfg tr).step cfg ConnEvent.timerFire).reconnectMs = t.newMs) ∧
    ((reachFrom cfg tr).state = ConnectionState.CONNECTING →
      ((reachFrom cfg tr).step cfg ConnEvent.openSuccess).reconnectMs =
        cfg.reconnectTimeout) := by
  have hinv : ConnTimersOk cfg (reachFrom cfg tr) :=
    connTimersOk_run cfg (Connection.init cfg) tr h (connTimersOk_init cfg h)
  refine ⟨fun t ht => (hinv.2 t ht).1, ?_, ?_, ?_⟩
  · intro code hcode hrec
    simp only [Connection.step, Connection.handleClose]
    rw [if_neg]
    intro hor
    cases hor with
    | inl hl => exact hcode hl
    | inr hr => rw [hrec] at hr; exact hr rfl
  · intro t rest hT
    simp only [Connection.step]
    simp only [hT]
    split
    · rfl
    · rfl
  · intro hstate
    simp only [Connection.step]
    rw [if_pos hstate]

/-- Witness for C3 at the default configuration and the empty trace. -/
theorem backoff_delay_bounded_multiplied_and_reset_witness :
    cfgDefault.reconnectTimeout ≤ cfgDefault.maxReconnectTimeout ∧
    ((∀ t ∈ (reachFrom cfgDefault []).timers,
        t.delay ≤ cfgDefault.maxReconnectTimeout) ∧
     (∀ code : Nat, code ≠ 1000 → cfgDefault.shouldReconnect = true →
       ((reachFrom cfgDefault []).step cfgDefault (ConnEvent.closeEvt code)).timers =
         (reachFrom cfgDefault []).timers ++
           [{ delay := (reachFrom cfgDefault []).reconnectMs
              newMs := ratMin ((reachFrom cfgDefault []).reconnectMs * (3 / 2))
                cfgDefault.maxReconnectTimeout }]) ∧
     (∀ t rest, (reachFrom cfgDefault []).timers = t :: rest →
       ((reachFrom cfgDefault []).step cfgDefault ConnEvent.timerFire).reconnectMs =
         t.newMs) ∧
     ((reachFrom cfgDefault []).state = ConnectionState.CONNECTING →
       ((reachFrom cfgDefault []).step cfgDefault ConnEvent.openSuccess).reconnectMs =
         cfgDefault.reconnectTimeout)) :=
  ⟨by decide, backoff_delay_bounded_multiplied_and_reset cfgDefault (by decide) []⟩

theorem storeEvent_sids (cfg : Config) (ctx : StoreCtx) (b : Batch) (db db' : Db)
    (h : storeEvent cfg ctx b db = Except.ok db') : db'.sids = db.sids := by
  unfold storeEvent at h
  split at h
  · cases h; rfl
  · split at h
    · cases h; rfl
    · split at h
      · exact Except.noConfusion h
      · cases h; rfl

/-- The dispatch stage of `processEvent`: the result differs from the input
state only in the dispatch log, which grows by the batch's payloads exactly
when the batch has a truthy destination with registered handlers. -/
theorem processEvent_skip_shape (cfg : Config) (ctx : StoreCtx) (s : SystemState)
    (b : Batch) :
    processEvent cfg ctx s b true =
      { s with dispatchLog :=
          s.dispatchLog ++ deliveredOutput s.destinationHandlers b } := by
  unfold processEvent dispatch deliveredOutput
  by_cases hd : b.destination = ""
  · simp [hd]
  · by_cases hm : b.destination ∈ s.destinationHandlers
    · simp [hd, hm]
    · simp [hd, hm]

/-- `processEvent` in general: the `sids` store, the source manager, the
pending map and the handler registry are untouched; the cache may change;
the dispatch log grows by `deliveredOutput`. -/
theorem processEvent_shape (cfg : Config) (ctx : StoreCtx) (s : SystemState)
    (b : Batch) (sk : Bool) :
    ∃ ev : List EventCacheEntry,
      processEvent cfg ctx s b sk =
        { s with
          db := { sids := s.db.sids, events := ev }
          dispatchLog :=
            s.dispatchLog ++ deliveredOutput s.destinationHandlers b } := by
  unfold processEvent dispatch deliveredOutput
  by_cases hc : (cfg.cacheEnabled && !sk) = true
  · cases hse : storeEvent cfg ctx b s.db with
    | ok db' =>
      refine ⟨db'.events, ?_⟩
      have hsids := storeEvent_sids cfg ctx b s.db db' hse
      rw [if_pos hc]
      by_cases hd : b.destination = ""
      · simp [hd, ← hsids]
      · by_cases hm : b.destination ∈ s.destinationHandlers
        · simp [hd, hm, ← hsids]
        · simp [hd, hm, ← hsids]
    | error e =>
      refine ⟨s.db.events, ?_⟩
      rw [if_pos hc]
      by_cases hd : b.destination = ""
      · simp [hd]
      · by_cases hm : b.destination ∈ s.destinationHandlers
        · simp [hd, hm]
        · simp [hd, hm]
  · refine ⟨s.db.events, ?_⟩
    rw [if_neg hc]
    by_cases hd : b.destination = ""
    · simp [hd]
    · by_cases hm : b.destination ∈ s.destinationHandlers
      · simp [hd, hm]
      · simp [hd, hm]

/-- Replaying a list of batches through `processEvent` with `skipCache` set
only extends the dispatch log, in list order. -/
theorem replay_foldl (cfg : Config) (ctx : StoreCtx) (l : List Batch)
    (s : SystemState) :
    l.foldl (fun t batch => processEvent cfg ctx t batch true) s =
      { s with dispatchLog :=
          s.dispatchLog ++ (l.map (deliveredOutput s.destinationHandlers)).flatten } := by
  induction l generalizing s with
  | nil => simp
  | cons b restb ih =>
    rw [List.foldl_cons, processEvent_skip_shape, ih]
    simp [List.append_assoc]

theorem find?_putSession (l : List SessionData) (sd : SessionData) (d : String)
    (hd : sd.destination = d) :
    (putSession l sd).find? (fun x => x.destination == d) = some sd := by
  induction l with
  | nil =>
    simp only [putSession]
    rw [List.find?_cons_of_pos _ (by simp [hd])]
  | cons x rest ih =>
    simp only [putSession]
    by_cases hx : x.destination = sd.destination
    · rw [if_pos hx, List.find?_cons_of_pos _ (by simp [hd])]
    · rw [if_neg hx, List.find?_cons_of_neg _ (by simp [hd ▸ hx]), ih]

/-- `updateGid` on an available, non-failing store: overwrite the record's
gid when a record exists, no-op otherwise. -/
theorem updateGid_ok (ctx : StoreCtx) (d g : String) (db : Db)
    (hdb : ctx.dbAvailable = true) (hupd : ctx.oracle.updateGidFails = false) :
    updateGid ctx d g db =
      Except.ok (match db.sids.find? (fun sd => sd.destination == d) with
        | some sd => { db with sids := putSession db.sids { sd with gid := some g } }
        | none => db) := by
  unfold updateGid
  rw [if_neg (by simp [hdb]), if_neg (by simp [hupd])]
  cases db.sids.find? (fun sd => sd.destination == d) <;> rfl

/-- `getGid` on an available, non-failing store reads the record's gid. -/
theorem getGid_eq (ctx : StoreCtx) (d : String) (db : Db)
    (hdb : ctx.dbAvailable = true) (hget : ctx.oracle.getSessionDataFails = false) :
    getGid ctx d db =
      (db.sids.find? (fun sd => sd.destination == d)).bind (fun sd => sd.gid) := by
  unfold getGid getSessionData
  rw [if_neg (by simp [hdb]), if_neg (by simp [hget])]

/-- C4 (amended): for an event frame whose destination has no (truthy)
stored cursor, the batch is delivered exactly as received (all events,
unfiltered); afterwards, if a `SessionRecord` exists for the destination
its cursor equals the batch's trailing gid, while if none exists the
cursor update is a no-op and the `sids` store is unchanged (no cursor is
stored). -/
theorem first_batch_delivery_and_cursor_amended (cfg : Config) (ctx : StoreCtx)
    (s : SystemState) (frame : EventFrame)
    (hdb : ctx.dbAvailable = true)
    (hget : ctx.oracle.getSessionDataFails = false)
    (hupd : ctx.oracle.updateGidFails = false)
    (hdest : frame.batch.destination ≠ "")
    (hnocur : optTruthy (getGid ctx frame.batch.destination s.db) = false) :
    ∃ s', processEventFrame cfg ctx s frame = Except.ok s' ∧
      s'.dispatchLog = s.dispatchLog ++
        deliveredOutput s.destinationHandlers
          { frame.batch with sid := frame.sid } ∧
      ((s.db.sids.find?
          (fun sd => sd.destination == frame.batch.destination)).isSome = true →
        getGid ctx frame.batch.destination s'.db = some frame.batch.gid) ∧
      (s.db.sids.find?
          (fun sd => sd.destination == frame.batch.destination) = none →
        s'.db.sids = s.db.sids) := by
  obtain ⟨ev, hs1⟩ :=
    processEvent_shape cfg ctx s { frame.batch with sid := frame.sid } false
  simp only [processEventFrame]
  rw [if_neg hdest,
    if_pos (show (!optTruthy (getGid ctx frame.batch.destination s.db)) = true by
      rw [hnocur]; rfl)]
  rw [hs1, updateGid_ok ctx _ _ _ hdb hupd]
  dsimp only
  cases hfind : s.db.sids.find? (fun sd => sd.destination == frame.batch.destination) with
  | none =>
    refine ⟨_, rfl, rfl, ?_, ?_⟩
    · intro hsome
      exact Bool.noConfusion hsome
    · intro _
      rfl
  | some sd =>
    have hdd : sd.destination = frame.batch.destination := by
      have hp := List.find?_some hfind
      simpa using hp
    refine ⟨_, rfl, rfl, ?_, ?_⟩
    · intro _
      rw [getGid_eq ctx _ _ hdb hget]
      dsimp only
      rw [find?_putSession s.db.sids
        { destination := sd.destination, sid := sd.sid, gid := some frame.batch.gid }
        frame.batch.destination hdd]
      rfl
    · intro hnone
      exact Option.noConfusion hnone

/-- Witness for C4 (amended) at a destination whose record exists with no
cursor yet. -/
theorem first_batch_delivery_and_cursor_amended_witness :
    ctxOk.dbAvailable = true ∧
    ctxOk.oracle.getSessionDataFails = false ∧
    ctxOk.oracle.updateGidFails = false ∧
    evC4.batch.destination ≠ "" ∧
    optTruthy (getGid ctxOk evC4.batch.destination sC4w.db) = false ∧
    (∃ s', processEventFrame cfgNoCache ctxOk sC4w evC4 = Except.ok s' ∧
      s'.dispatchLog = sC4w.dispatchLog ++
        deliveredOutput sC4w.destinationHandlers
          { evC4.batch with sid := evC4.sid } ∧
      ((sC4w.db.sids.find?
          (fun sd => sd.destination == evC4.batch.destination)).isSome = true →
        getGid ctxOk evC4.batch.destination s'.db = some evC4.batch.gid) ∧
      (sC4w.db.sids.find?
          (fun sd => sd.destination == evC4.batch.destination) = none →
        s'.db.sids = sC4w.db.sids)) :=
  ⟨rfl, rfl, rfl, by decide, rfl,
    first_batch_delivery_and_cursor_amended cfgNoCache ctxOk sC4w evC4 rfl rfl rfl
      (by decide) rfl⟩

/-- C5: when the acknowledged sid equals the sid of the matched pending
frame (which is the stored sid for that destination), `handleSubAck`
replays exactly the sid's cached batches through the event pipeline in
cache insertion order (the dispatch log grows by their payloads, in
order), re-caches nothing and modifies no session-store record (the whole
database is unchanged), and removes the pending entry. -/
theorem confirmed_session_replays_cache_without_recaching (cfg : Config)
    (ctx : StoreCtx) (s : SystemState) (frame : SubAckFrame) (cid : Nat)
    (sf : SubscribeFrame) (rest : List (Nat × SubscribeFrame)) (s0 : String)
    (hpend : s.pendingSubscriptions = (cid, sf) :: rest)
    (hcid : cid ≠ 0)
    (hsid : sf.sid = some s0)
    (hs0 : s0 ≠ "")
    (heq : frame.sid = s0)
    (_hstored : (getSessionData ctx sf.destination s.db).map (fun sd => sd.sid) =
      some s0) :
    handleSubAck cfg ctx s frame =
      Except.ok { s with
        dispatchLog := s.dispatchLog ++
          ((getEventsBySid cfg ctx frame.sid s.db).map
            (deliveredOutput s.destinationHandlers)).flatten
        pendingSubscriptions := eraseAssoc s.pendingSubscriptions cid } := by
  have h1 : optTruthy sf.sid = true := by
    rw [hsid]
    simpa [optTruthy] using hs0
  simp only [handleSubAck]
  rw [hpend]
  dsimp only
  rw [if_neg hcid,
    if_neg (show ¬((!optTruthy sf.sid) = true) by rw [h1]; decide),
    if_neg (show ¬(sf.sid ≠ some frame.sid) by rw [hsid, heq]; simp)]
  dsimp only
  rw [replay_foldl]
  dsimp only
  rw [hpend]

/-- Witness for C5 at a cache holding two batches for the confirmed sid. -/
theorem confirmed_session_replays_cache_without_recaching_witness :
    sC5.pendingSubscriptions = (9, sfC5) :: [] ∧
    (9 : Nat) ≠ 0 ∧
    sfC5.sid = some "s1" ∧
    ("s1" : String) ≠ "" ∧
    (SubAckFrame.mk "s1").sid = "s1" ∧
    (getSessionData ctxOk sfC5.destination sC5.db).map (fun sd => sd.sid) =
      some "s1" ∧
    handleSubAck cfgDefault ctxOk sC5 { sid := "s1" } =
      Except.ok { sC5 with
        dispatchLog := sC5.dispatchLog ++
          ((getEventsBySid cfgDefault ctxOk (SubAckFrame.mk "s1").sid sC5.db).map
            (deliveredOutput sC5.destinationHandlers)).flatten
        pendingSubscriptions := eraseAssoc sC5.pendingSubscriptions 9 } :=
  ⟨rfl, by decide, rfl, by decide, rfl, rfl,
    confirmed_session_replays_cache_without_recaching cfgDefault ctxOk sC5
      { sid := "s1" } 9 sfC5 [] "s1" rfl (by decide) rfl (by decide) rfl rfl⟩

/-- C8 (amended): a session-store mutation failure during the session-reset
branch is caught by `handleSubAck`'s internal `try/catch` and only logged:
for EVERY failure oracle, `handleSubAck` resolves successfully and still
removes the matched pending entry; the failure is never surfaced to
`handleSubAck`'s caller.  (The store helpers do re-raise, but only as far
as that catch.) -/
theorem session_reset_branch_resolves_despite_store_failure (cfg : Config)
    (ctx : StoreCtx) (s : SystemState) (frame : SubAckFrame) (cid : Nat)
    (sf : SubscribeFrame) (rest : List (Nat × SubscribeFrame)) (s0 : String)
    (hpend : s.pendingSubscriptions = (cid, sf) :: rest)
    (hcid : cid ≠ 0)
    (hsid : sf.sid = some s0)
    (hs0 : s0 ≠ "")
    (hne : s0 ≠ frame.sid) :
    ∃ s', handleSubAck cfg ctx s frame = Except.ok s' ∧
      s'.pendingSubscriptions = eraseAssoc s.pendingSubscriptions cid := by
  have h1 : optTruthy sf.sid = true := by
    rw [hsid]
    simpa [optTruthy] using hs0
  simp only [handleSubAck]
  rw [hpend]
  dsimp only
  rw [if_neg hcid,
    if_neg (show ¬((!optTruthy sf.sid) = true) by rw [h1]; decide),
    if_pos (show sf.sid ≠ some frame.sid by rw [hsid]; simpa using hne)]
  cases hc1 : clearEventsByDestination ctx sf.destination s.db with
  | error e =>
    refine ⟨_, rfl, ?_⟩
    dsimp only
    try rw [hpend]
  | ok db1 =>
    dsimp only
    cases hc2 : removeDestination ctx sf.destination db1 with
    | error e =>
      refine ⟨_, rfl, ?_⟩
      dsimp only
      try rw [hpend]
    | ok db2 =>
      dsimp only
      cases hc3 : storeSessionId ctx frame.sid sf.destination db2 with
      | error e =>
        refine ⟨_, rfl, ?_⟩
        dsimp only
        try rw [hpend]
      | ok db3 =>
        refine ⟨_, rfl, ?_⟩
        dsimp only
        try rw [hpend]

/-- Witness for C8 (amended) with a failing `sids`-store delete. -/
theorem session_reset_branch_resolves_despite_store_failure_witness :
    sC8.pendingSubscriptions = (5, sfC8) :: [] ∧
    (5 : Nat) ≠ 0 ∧
    sfC8.sid = some "s1" ∧
    ("s1" : String) ≠ "" ∧
    ("s1" : String) ≠ (SubAckFrame.mk "s2").sid ∧
    (∃ s', handleSubAck cfgDefault ctxRemoveFail sC8 { sid := "s2" } =
        Except.ok s' ∧
      s'.pendingSubscriptions = eraseAssoc sC8.pendingSubscriptions 5) :=
  ⟨rfl, by decide, rfl, by decide, by decide,
    session_reset_branch_resolves_despite_store_failure cfgDefault ctxRemoveFail
      sC8 { sid := "s2" } 5 sfC8 [] "s1" rfl (by decide) rfl (by decide) (by decide)⟩

end Exoquic
